import Mathlib

/-!
Shallow embedding of `src/webhook_server.py` (the CallFlex AI webhook relay).

The server exposes two POST endpoints, `/typeform-webhook` and
`/stripe-webhook`, plus two health checks.  Request bodies are JSON; the
handlers read them with Python dictionary operations (`d.get`, `d[k]`,
`len`, truthiness), so the embedding models Python-visible JSON values
(`JValue`) together with the exceptions those operations can raise
(`Except String`).  Each handler is a pure function from the startup
environment and the request body to an HTTP response, the list of storage
commands it issued, and its console log.  The external storage (Supabase)
only receives commands; its row-level semantics is modelled separately in
`applyAction`.
-/

/-- A JSON value as Python sees it after `request.json`: `null` is Python
`None`, objects are dicts (field lists with distinct keys, in insertion
order), arrays are lists. -/
inductive JValue where
  | null
  | bool (b : Bool)
  | num (n : Int)
  | str (s : String)
  | arr (elems : List JValue)
  | obj (fields : List (String × JValue))

/- Structural decidable equality for `JValue`, written as a mutual
recursion through the nested list positions (the deriving handler does
not cover them). -/
mutual

def JValue.decEq : (a b : JValue) → Decidable (a = b)
  | .null, .null => isTrue rfl
  | .bool a, .bool b =>
      if h : a = b then isTrue (by rw [h])
      else isFalse (by intro hh; injection hh; contradiction)
  | .num a, .num b =>
      if h : a = b then isTrue (by rw [h])
      else isFalse (by intro hh; injection hh; contradiction)
  | .str a, .str b =>
      if h : a = b then isTrue (by rw [h])
      else isFalse (by intro hh; injection hh; contradiction)
  | .arr a, .arr b =>
      match JValue.decEqList a b with
      | isTrue h => isTrue (by rw [h])
      | isFalse h => isFalse (by intro hh; injection hh; contradiction)
  | .obj a, .obj b =>
      match JValue.decEqFields a b with
      | isTrue h => isTrue (by rw [h])
      | isFalse h => isFalse (by intro hh; injection hh; contradiction)
  | .null, .bool _ => isFalse (fun h => JValue.noConfusion h)
  | .null, .num _ => isFalse (fun h => JValue.noConfusion h)
  | .null, .str _ => isFalse (fun h => JValue.noConfusion h)
  | .null, .arr _ => isFalse (fun h => JValue.noConfusion h)
  | .null, .obj _ => isFalse (fun h => JValue.noConfusion h)
  | .bool _, .null => isFalse (fun h => JValue.noConfusion h)
  | .bool _, .num _ => isFalse (fun h => JValue.noConfusion h)
  | .bool _, .str _ => isFalse (fun h => JValue.noConfusion h)
  | .bool _, .arr _ => isFalse (fun h => JValue.noConfusion h)
  | .bool _, .obj _ => isFalse (fun h => JValue.noConfusion h)
  | .num _, .null => isFalse (fun h => JValue.noConfusion h)
  | .num _, .bool _ => isFalse (fun h => JValue.noConfusion h)
  | .num _, .str _ => isFalse (fun h => JValue.noConfusion h)
  | .num _, .arr _ => isFalse (fun h => JValue.noConfusion h)
  | .num _, .obj _ => isFalse (fun h => JValue.noConfusion h)
  | .str _, .null => isFalse (fun h => JValue.noConfusion h)
  | .str _, .bool _ => isFalse (fun h => JValue.noConfusion h)
  | .str _, .num _ => isFalse (fun h => JValue.noConfusion h)
  | .str _, .arr _ => isFalse (fun h => JValue.noConfusion h)
  | .str _, .obj _ => isFalse (fun h => JValue.noConfusion h)
  | .arr _, .null => isFalse (fun h => JValue.noConfusion h)
  | .arr _, .bool _ => isFalse (fun h => JValue.noConfusion h)
  | .arr _, .num _ => isFalse (fun h => JValue.noConfusion h)
  | .arr _, .str _ => isFalse (fun h => JValue.noConfusion h)
  | .arr _, .obj _ => isFalse (fun h => JValue.noConfusion h)
  | .obj _, .null => isFalse (fun h => JValue.noConfusion h)
  | .obj _, .bool _ => isFalse (fun h => JValue.noConfusion h)
  | .obj _, .num _ => isFalse (fun h => JValue.noConfusion h)
  | .obj _, .str _ => isFalse (fun h => JValue.noConfusion h)
  | .obj _, .arr _ => isFalse (fun h => JValue.noConfusion h)

def JValue.decEqList : (xs ys : List JValue) → Decidable (xs = ys)
  | [], [] => isTrue rfl
  | x :: xs, y :: ys =>
      match JValue.decEq x y with
      | isTrue h1 =>
        match JValue.decEqList xs ys with
        | isTrue h2 => isTrue (by rw [h1, h2])
        | isFalse h2 => isFalse (by intro hh; injection hh; contradiction)
      | isFalse h1 => isFalse (by intro hh; injection hh; contradiction)
  | [], _ :: _ => isFalse (fun h => List.noConfusion h)
  | _ :: _, [] => isFalse (fun h => List.noConfusion h)

def JValue.decEqFields : (xs ys : List (String × JValue)) → Decidable (xs = ys)
  | [], [] => isTrue rfl
  | (k₁, v₁) :: xs, (k₂, v₂) :: ys =>
      if hk : k₁ = k₂ then
        match JValue.decEq v₁ v₂ with
        | isTrue hv =>
          match JValue.decEqFields xs ys with
          | isTrue ht => isTrue (by rw [hk, hv, ht])
          | isFalse ht => isFalse (by intro hh; injection hh; contradiction)
        | isFalse hv =>
            isFalse (by
              intro hh
              injection hh with h1 h2
              exact hv (congrArg Prod.snd h1))
      else
        isFalse (by
          intro hh
          injection hh with h1 h2
          exact hk (congrArg Prod.fst h1))
  | [], _ :: _ => isFalse (fun h => List.noConfusion h)
  | _ :: _, [] => isFalse (fun h => List.noConfusion h)

end

instance : DecidableEq JValue := JValue.decEq

/-- First match in a field list.  An `obj` models an already-constructed
Python dict, whose keys are distinct, so first match is dict lookup. -/
def lookupField : List (String × JValue) → String → Option JValue
  | [], _ => none
  | (k, v) :: rest, key => if k = key then some v else lookupField rest key

/-- Models Python `d.get(key, default)`: on a dict it returns the stored
value when the key is present (even when that value is `None`) and the
default otherwise; on any non-dict it raises `AttributeError`. -/
def JValue.dictGet : JValue → String → JValue → Except String JValue
  | .obj fields, key, dflt => .ok ((lookupField fields key).getD dflt)
  | _, _, _ => .error "AttributeError"

/-- Python truthiness of a JSON value: `None`, `False`, `0`, `""`, `[]`
and the empty dict are falsy. -/
def JValue.truthy : JValue → Bool
  | .null => false
  | .bool b => b
  | .num n => n ≠ 0
  | .str s => s ≠ ""
  | .arr xs => xs ≠ []
  | .obj kvs => kvs ≠ []

/-- Models Python `len`: defined on strings, lists and dicts, a
`TypeError` on the other JSON values. -/
def JValue.pyLen : JValue → Except String Nat
  | .str s => .ok s.length
  | .arr xs => .ok xs.length
  | .obj kvs => .ok kvs.length
  | _ => .error "TypeError: object has no len()"

/-- Models Python integer subscription `x[i]` for a non-negative index:
list indexing, string indexing (a one-character string), `KeyError` on a
dict parsed from JSON (its keys are strings), `TypeError` otherwise. -/
def JValue.pyIndex : JValue → Nat → Except String JValue
  | .arr xs, i =>
      match xs[i]? with
      | some v => .ok v
      | none => .error "IndexError: list index out of range"
  | .str s, i =>
      match s.toList[i]? with
      | some c => .ok (.str (String.singleton c))
      | none => .error "IndexError: string index out of range"
  | .obj _, _ => .error "KeyError"
  | _, _ => .error "TypeError: object is not subscriptable"

/-- Models Python string subscription `x[key]`: a dict lookup that raises
`KeyError` when the key is absent, `TypeError` on non-dicts. -/
def JValue.pySubscript : JValue → String → Except String JValue
  | .obj fields, key =>
      match lookupField fields key with
      | some v => .ok v
      | none => .error ("KeyError: " ++ key)
  | _, _ => .error "TypeError: object is not subscriptable"

/-- A single quote character, used by the Python `repr` rendering. -/
def singleQuote : String := String.singleton (Char.ofNat 39)

mutual

def JValue.pyRepr : JValue → String
  | .null => "None"
  | .bool true => "True"
  | .bool false => "False"
  | .num n => toString n
  | .str s => singleQuote ++ s ++ singleQuote
  | .arr xs => "[" ++ JValue.pyReprList xs ++ "]"
  | .obj kvs => "\x7b" ++ JValue.pyReprFields kvs ++ "\x7d"

def JValue.pyReprList : List JValue → String
  | [] => ""
  | [x] => JValue.pyRepr x
  | x :: xs => JValue.pyRepr x ++ ", " ++ JValue.pyReprList xs

def JValue.pyReprFields : List (String × JValue) → String
  | [] => ""
  | [(k, v)] => singleQuote ++ k ++ singleQuote ++ ": " ++ JValue.pyRepr v
  | (k, v) :: kvs =>
      singleQuote ++ k ++ singleQuote ++ ": " ++ JValue.pyRepr v ++ ", " ++
        JValue.pyReprFields kvs

end

/-- Models Python `str(x)` as used by the f-strings in the handlers: a
string formats as itself, everything else as its `repr`. -/
def JValue.pyStr : JValue → String
  | .str s => s
  | v => JValue.pyRepr v

/-- Models Python `x == "lit"`: in Python a comparison of a non-string
JSON value with a string literal is always `False`. -/
def JValue.pyEqStr : JValue → String → Bool
  | .str s, t => s = t
  | _, _ => false

/-- The record assembled at lines 89-96 of `webhook_server.py` and passed
to `supabase.table('clients').insert(...)`: a dict with exactly these six
keys. -/
structure ClientData where
  business_name : JValue
  contact_email : JValue
  prospecting_niche : JValue
  prospecting_location : JValue
  subscription_status : JValue
  monthly_plan : JValue
  deriving DecidableEq

/-- One outbound command issued to the storage client: either
`table(t).insert(data).execute()` or
`table(t).update({setField: setValue}).eq(eqField, eqValue).execute()`. -/
inductive StorageAction where
  | insert (table : String) (data : ClientData)
  | update (table : String) (setFld : String) (setValue : JValue)
      (eqFld : String) (eqValue : JValue)
  deriving DecidableEq

/-- An HTTP response: status code and the `jsonify`-ed body. -/
structure HttpResponse where
  status : Nat
  body : JValue
  deriving DecidableEq

/-- What one handler invocation produced: the HTTP response, the storage
commands it issued (in order), and its console log. -/
structure HandlerResult where
  response : HttpResponse
  actions : List StorageAction
  log : List String
  deriving DecidableEq

/-- The ambient state a request runs against: whether the module-level
`supabase` client was initialized (lines 14-22), and the outcomes of the
external storage round trips (`insert ... execute()` returns the created
rows in `response.data`; either call may raise). -/
structure Env where
  supabaseConnected : Bool
  insertResult : Except String (List JValue)
  updateResult : Except String Unit

/-- A Python exception caught by a handler's top-level `except`: the error
text, together with the storage commands already issued and the log lines
already printed inside the `try` block when it was raised. -/
abbrev PyExn := String × List StorageAction × List String

/-- Runs one Python expression that may raise (an `Except String`
computation) inside a handler's `try` block: a raise aborts the handler
with the log lines printed so far, a value feeds the continuation. -/
def tryStep {α β : Type} (logs : List String) (x : Except String α)
    (k : α → Except PyExn β) : Except PyExn β :=
  match x with
  | .error e => .error (e, [], logs)
  | .ok a => k a

/-- The body `{'error': msg}` produced by the error responses. -/
def jerror (msg : String) : JValue := .obj [("error", .str msg)]

/-- Line 73: `answers = data.get('form_response', {}).get('answers', [])`. -/
def extractAnswers (data : JValue) : Except String JValue :=
  match data.dictGet "form_response" (.obj []) with
  | .error e => .error e
  | .ok fr => fr.dictGet "answers" (.arr [])

/-- The 200 body of lines 103-107: status, message with the business name
interpolated, and the client id reported by storage. -/
def typeformSuccessBody (business_name cid : JValue) : JValue :=
  .obj [("status", .str "success"),
        ("message", .str ("Client " ++ business_name.pyStr ++ " added successfully")),
        ("client_id", cid)]

/-- Lines 66-107 of `handle_typeform_submission`, after the `supabase` and
`if not data` guards: answer extraction, the length check, the positional
field mapping with defaults (lines 81-84), the insert (line 99) and the
success response, all inside the `try`. -/
def typeformCore (env : Env) (data : JValue) :
    Except PyExn (HttpResponse × List StorageAction × List String) :=
  tryStep [] (extractAnswers data) fun answers =>
  tryStep [] answers.pyLen fun n =>
  if n < 4 then
    .ok (⟨400, jerror "Incomplete form submission"⟩, [],
      ["❌ ERROR: Not enough answers (got " ++ toString n ++ ", need 4)"])
  else
  tryStep [] (answers.pyIndex 0) fun a0 =>
  tryStep [] (a0.dictGet "text" (.str "Unknown Business")) fun business_name =>
  tryStep [] (answers.pyIndex 1) fun a1 =>
  tryStep [] (a1.dictGet "email" (.str "no-email@example.com")) fun contact_email =>
  tryStep [] (answers.pyIndex 2) fun a2 =>
  tryStep [] (a2.dictGet "text" (.str "Not specified")) fun prospecting_niche =>
  tryStep [] (answers.pyIndex 3) fun a3 =>
  tryStep [] (a3.dictGet "text" (.str "Not specified")) fun prospecting_location =>
  let logs1 := ["📝 Processing client: " ++ business_name.pyStr]
  let client_data : ClientData :=
    ⟨business_name, contact_email, prospecting_niche, prospecting_location,
      .str "trialing", .str "pro"⟩
  let action := StorageAction.insert "clients" client_data
  match env.insertResult with
  | .error e => .error (e, [action], logs1)
  | .ok rows =>
    let logs2 := logs1 ++ ["✅ SUCCESS: Client " ++ business_name.pyStr ++ " saved to database"]
    match rows with
    | [] => .ok (⟨200, typeformSuccessBody business_name JValue.null⟩, [action], logs2)
    | r :: _ =>
      match r.pySubscript "id" with
      | .error e => .error (e, [action], logs2)
      | .ok cid => .ok (⟨200, typeformSuccessBody business_name cid⟩, [action], logs2)

/-- The `/typeform-webhook` POST handler (lines 39-113).  `requestJson`
models Flask's `request.json`: `none` when the request carries no
parseable JSON body.  The `supabase` guard answers 500 before anything
else; a falsy body answers 400; exceptions from the body become 500 with
the error text. -/
def handle_typeform_submission (env : Env) (requestJson : Option JValue) : HandlerResult :=
  let lg0 := ["📥 Received Typeform webhook"]
  if env.supabaseConnected = false then
    ⟨⟨500, jerror "Database connection failed"⟩, [],
      lg0 ++ ["❌ ERROR: Supabase not initialized"]⟩
  else
    match requestJson with
    | none =>
        ⟨⟨400, jerror "No data received"⟩, [], lg0 ++ ["❌ ERROR: No JSON data received"]⟩
    | some data =>
      if data.truthy = false then
        ⟨⟨400, jerror "No data received"⟩, [], lg0 ++ ["❌ ERROR: No JSON data received"]⟩
      else
        match typeformCore env data with
        | .error (e, acts, lgs) =>
            ⟨⟨500, jerror e⟩, acts,
              lg0 ++ lgs ++ ["❌ ERROR processing Typeform webhook: " ++ e]⟩
        | .ok (resp, acts, lgs) => ⟨resp, acts, lg0 ++ lgs⟩

/-- Line 136: the nested read
`data.get('data', {}).get('object', {}).get('customer_details', {}).get('email')`. -/
def extractCustomerEmail (data : JValue) : Except String JValue :=
  match data.dictGet "data" (.obj []) with
  | .error e => .error e
  | .ok d =>
    match d.dictGet "object" (.obj []) with
    | .error e => .error e
    | .ok o =>
      match o.dictGet "customer_details" (.obj []) with
      | .error e => .error e
      | .ok c => c.dictGet "email" JValue.null

/-- The constant 200 body `{'status': 'success'}` of line 148. -/
def stripeSuccessBody : JValue := .obj [("status", .str "success")]

/-- Lines 129-148 of `handle_stripe_payment`, after the `supabase` guard:
read the event type (a missing body makes `data.get` raise), and on a
`checkout.session.completed` event with a truthy customer email issue the
update of lines 142-144; every non-raising path answers 200. -/
def stripeCore (env : Env) (requestJson : Option JValue) :
    Except PyExn (HttpResponse × List StorageAction × List String) :=
  match requestJson with
  | none => .error ("AttributeError", [], [])
  | some data =>
    tryStep [] (data.dictGet "type" JValue.null) fun event_type =>
    let lgs := ["📋 Stripe event type: " ++ event_type.pyStr]
    if event_type.pyEqStr "checkout.session.completed" then
      tryStep lgs (extractCustomerEmail data) fun customer_email =>
      if customer_email.truthy then
        let action := StorageAction.update "clients" "subscription_status" (.str "active")
          "contact_email" customer_email
        let lgs2 := lgs ++ ["🔄 Activating client: " ++ customer_email.pyStr]
        match env.updateResult with
        | .error e => .error (e, [action], lgs2)
        | .ok _ =>
            .ok (⟨200, stripeSuccessBody⟩, [action],
              lgs2 ++ ["✅ Client " ++ customer_email.pyStr ++ " activated successfully"])
      else .ok (⟨200, stripeSuccessBody⟩, [], lgs)
    else .ok (⟨200, stripeSuccessBody⟩, [], lgs)

/-- The `/stripe-webhook` POST handler (lines 115-152): the `supabase`
guard answers 500, exceptions become 500 with the error text, every other
path answers 200. -/
def handle_stripe_payment (env : Env) (requestJson : Option JValue) : HandlerResult :=
  let lg0 := ["💳 Received Stripe webhook"]
  if env.supabaseConnected = false then
    ⟨⟨500, jerror "Database connection failed"⟩, [], lg0⟩
  else
    match stripeCore env requestJson with
    | .error (e, acts, lgs) =>
        ⟨⟨500, jerror e⟩, acts, lg0 ++ lgs ++ ["❌ ERROR processing Stripe webhook: " ++ e]⟩
    | .ok (resp, acts, lgs) => ⟨resp, acts, lg0 ++ lgs⟩

/-- The `GET /` health check (lines 24-32). -/
def handle_home (supabaseConnected : Bool) : HttpResponse :=
  ⟨200, .obj [("status", .str "online"),
              ("service", .str "CallFlex AI Webhook Server"),
              ("version", .str "1.0"),
              ("supabase_connected", .bool supabaseConnected)]⟩

/-- The `GET /health` health check (lines 34-37). -/
def handle_health : HttpResponse := ⟨200, .obj [("status", .str "healthy")]⟩

/-- Python truthiness of `os.getenv`'s result: `None` (variable absent)
and the empty string are falsy. -/
def pyOptStrTruthy : Option String → Bool
  | none => false
  | some s => s ≠ ""

/-- Lines 10-22: the module-level `supabase` client is created only when
both environment variables are truthy; otherwise it stays `None`. -/
def initSupabaseConnected (url serviceKey : Option String) : Bool :=
  pyOptStrTruthy url && pyOptStrTruthy serviceKey

/-- One row of the `clients` table held by the external storage. -/
structure StoredRecord where
  id : JValue
  business_name : JValue
  contact_email : JValue
  prospecting_niche : JValue
  prospecting_location : JValue
  subscription_status : JValue
  monthly_plan : JValue
  deriving DecidableEq

/-- Column read of a stored row by column name. -/
def StoredRecord.getField (r : StoredRecord) (f : String) : JValue :=
  if f = "id" then r.id
  else if f = "business_name" then r.business_name
  else if f = "contact_email" then r.contact_email
  else if f = "prospecting_niche" then r.prospecting_niche
  else if f = "prospecting_location" then r.prospecting_location
  else if f = "subscription_status" then r.subscription_status
  else if f = "monthly_plan" then r.monthly_plan
  else JValue.null

/-- Column write of a stored row by column name. -/
def StoredRecord.setField (r : StoredRecord) (f : String) (v : JValue) : StoredRecord :=
  if f = "id" then { r with id := v }
  else if f = "business_name" then { r with business_name := v }
  else if f = "contact_email" then { r with contact_email := v }
  else if f = "prospecting_niche" then { r with prospecting_niche := v }
  else if f = "prospecting_location" then { r with prospecting_location := v }
  else if f = "subscription_status" then { r with subscription_status := v }
  else if f = "monthly_plan" then { r with monthly_plan := v }
  else r

/-- The row created from an inserted `ClientData`; the id is assigned by
the storage system and is outside this model. -/
def recordOfClientData (cd : ClientData) (newId : JValue) : StoredRecord :=
  ⟨newId, cd.business_name, cd.contact_email, cd.prospecting_niche,
    cd.prospecting_location, cd.subscription_status, cd.monthly_plan⟩

/-- Modelled from the spec: the storage client is an external collaborator
("thin wrapper over a remote row store, exposing insert and
conditional-update operations"); an insert appends one row, and a
conditional update sets the named column on exactly the rows whose
matched column exactly equals the given value. -/
def applyAction (tbl : List StoredRecord) : StorageAction → List StoredRecord
  | .insert _ cd => tbl ++ [recordOfClientData cd JValue.null]
  | .update _ sf sv ef ev =>
      tbl.map fun r => if r.getField ef = ev then r.setField sf sv else r

/-- Replays a handler's issued commands against a table state. -/
def applyActions (tbl : List StoredRecord) : List StorageAction → List StoredRecord
  | [] => tbl
  | a :: rest => applyActions (applyAction tbl a) rest

/-- Sample environment: client initialized, the insert returns one row
carrying id 1, the update succeeds. -/
def envReady : Env := ⟨true, .ok [JValue.obj [("id", .num 1)]], .ok ()⟩

/-- Environment whose `supabase` client stayed `None` at startup. -/
def envNoClient : Env := ⟨false, .ok [], .ok ()⟩

/-- Sample first answer, carrying a business name. -/
def tfF0 : List (String × JValue) := [("text", .str "Acme Dental")]

/-- Sample second answer, carrying the contact email. -/
def tfF1 : List (String × JValue) := [("email", .str "owner@acme.com")]

/-- Sample second answer with the `email` key missing. -/
def tfF1NoEmail : List (String × JValue) := [("type", .str "skipped")]

/-- Sample third answer, carrying the niche. -/
def tfF2 : List (String × JValue) := [("text", .str "Dentists")]

/-- Sample fourth answer, carrying the location. -/
def tfF3 : List (String × JValue) := [("text", .str "Austin TX")]

/-- A Typeform body carrying only two answers. -/
def typeformBodyTwo : JValue :=
  .obj [("form_response", .obj [("answers", .arr [.obj tfF0, .obj tfF1])])]

/-- A Stripe `checkout.session.completed` event with the customer email
at the nested path. -/
def stripeCheckoutBody : JValue :=
  .obj [("type", .str "checkout.session.completed"),
        ("data", .obj [("object", .obj [("customer_details",
          .obj [("email", .str "a@b.com")])])])]

/-- A Stripe event of a non-matching type. -/
def stripeOtherBody : JValue := .obj [("type", .str "invoice.paid")]

/-- A stored row whose contact email matches the sample checkout event. -/
def rowMatching : StoredRecord :=
  ⟨.num 1, .str "Acme Dental", .str "a@b.com", .str "Dentists", .str "Austin TX",
    .str "trialing", .str "pro"⟩

/-- A stored row with a different contact email. -/
def rowOther : StoredRecord :=
  ⟨.num 2, .str "Other LLC", .str "z@y.com", .str "Roofers", .str "Dallas TX",
    .str "trialing", .str "pro"⟩

/-- Claim C1: every Typeform POST whose body yields at least 4 answers
issues exactly one insert, of a record whose subscription status is
exactly "trialing" and whose monthly plan is exactly "pro", regardless of
extra answers beyond the 4th, and responds 200. -/
theorem typeform_creates_trialing_pro (env : Env) (rows : List JValue)
    (f0 f1 f2 f3 : List (String × JValue)) (rest : List JValue)
    (hconn : env.supabaseConnected = true)
    (hins : env.insertResult = Except.ok rows)
    (hid : rows = [] ∨ ∃ r tl v, rows = r :: tl ∧ r.pySubscript "id" = Except.ok v) :
    (handle_typeform_submission env (some (.obj [("form_response",
        .obj [("answers", .arr (.obj f0 :: .obj f1 :: .obj f2 :: .obj f3 :: rest))])]))).response.status = 200 ∧
    ∃ cd : ClientData,
      (handle_typeform_submission env (some (.obj [("form_response",
          .obj [("answers", .arr (.obj f0 :: .obj f1 :: .obj f2 :: .obj f3 :: rest))])]))).actions =
        [StorageAction.insert "clients" cd] ∧
      cd.subscription_status = .str "trialing" ∧ cd.monthly_plan = .str "pro" := by
  simp [handle_typeform_submission, typeformCore, extractAnswers, JValue.dictGet,
    lookupField, JValue.truthy, JValue.pyLen, JValue.pyIndex, tryStep, hconn, hins,
    Option.getD]
  rw [if_neg (by omega)]
  rcases hid with rfl | ⟨r, tl, v, rfl, hv⟩
  · simp
  · simp [hv]

theorem typeform_creates_trialing_pro_witness :
    (handle_typeform_submission envReady (some (.obj [("form_response",
        .obj [("answers", .arr [.obj tfF0, .obj tfF1, .obj tfF2, .obj tfF3, .str "extra"])])]))).response.status = 200 ∧
    ∃ cd : ClientData,
      (handle_typeform_submission envReady (some (.obj [("form_response",
          .obj [("answers", .arr [.obj tfF0, .obj tfF1, .obj tfF2, .obj tfF3, .str "extra"])])]))).actions =
        [StorageAction.insert "clients" cd] ∧
      cd.subscription_status = .str "trialing" ∧ cd.monthly_plan = .str "pro" :=
  typeform_creates_trialing_pro envReady [JValue.obj [("id", .num 1)]]
    tfF0 tfF1 tfF2 tfF3 [.str "extra"] rfl rfl
    (Or.inr ⟨JValue.obj [("id", .num 1)], [], .num 1, rfl, rfl⟩)

/-- Claim C2: for every answers list with at least 4 entries the inserted
record is taken strictly positionally, with the named defaults on a
missing `text`/`email` key, and a missing key never causes a failure. -/
theorem typeform_positional_extraction (env : Env) (rows : List JValue)
    (f0 f1 f2 f3 : List (String × JValue)) (rest : List JValue)
    (hconn : env.supabaseConnected = true)
    (hins : env.insertResult = Except.ok rows) :
    (handle_typeform_submission env (some (.obj [("form_response",
        .obj [("answers", .arr (.obj f0 :: .obj f1 :: .obj f2 :: .obj f3 :: rest))])]))).actions =
      [StorageAction.insert "clients"
        ⟨(lookupField f0 "text").getD (.str "Unknown Business"),
         (lookupField f1 "email").getD (.str "no-email@example.com"),
         (lookupField f2 "text").getD (.str "Not specified"),
         (lookupField f3 "text").getD (.str "Not specified"),
         .str "trialing", .str "pro"⟩] := by
  simp [handle_typeform_submission, typeformCore, extractAnswers, JValue.dictGet,
    lookupField, JValue.truthy, JValue.pyLen, JValue.pyIndex, tryStep, hconn, hins,
    Option.getD]
  rw [if_neg (by omega)]
  rcases rows with _ | ⟨r, tail⟩
  · simp
  · cases hsub : r.pySubscript "id" <;> simp [hsub]

theorem typeform_positional_extraction_witness :
    (handle_typeform_submission envReady (some (.obj [("form_response",
        .obj [("answers", .arr [.obj tfF0, .obj tfF1NoEmail, .obj tfF2, .obj tfF3])])]))).actions =
      [StorageAction.insert "clients"
        ⟨.str "Acme Dental", .str "no-email@example.com", .str "Dentists", .str "Austin TX",
         .str "trialing", .str "pro"⟩] :=
  typeform_positional_extraction envReady [JValue.obj [("id", .num 1)]]
    tfF0 tfF1NoEmail tfF2 tfF3 [] rfl rfl

/-- Claim C3: a Typeform POST whose body yields fewer than 4 answers gets
a 400 response and issues no storage write, leaving any storage state
unchanged. -/
theorem typeform_short_answers_400_no_write (env : Env) (data : JValue) (xs : List JValue)
    (hconn : env.supabaseConnected = true)
    (htruthy : data.truthy = true)
    (hext : extractAnswers data = Except.ok (.arr xs))
    (hlen : xs.length < 4) :
    (handle_typeform_submission env (some data)).response =
      ⟨400, jerror "Incomplete form submission"⟩ ∧
    (handle_typeform_submission env (some data)).actions = [] ∧
    ∀ tbl, applyActions tbl (handle_typeform_submission env (some data)).actions = tbl := by
  simp [handle_typeform_submission, typeformCore, tryStep, hconn, htruthy, hext,
    JValue.pyLen, if_pos hlen, applyActions]

theorem typeform_short_answers_400_no_write_witness :
    (handle_typeform_submission envReady (some typeformBodyTwo)).response =
      ⟨400, jerror "Incomplete form submission"⟩ ∧
    (handle_typeform_submission envReady (some typeformBodyTwo)).actions = [] ∧
    ∀ tbl, applyActions tbl (handle_typeform_submission envReady (some typeformBodyTwo)).actions = tbl :=
  typeform_short_answers_400_no_write envReady typeformBodyTwo
    [.obj tfF0, .obj tfF1] rfl rfl rfl (by decide)

/-- Claim C4: a Stripe POST of type `checkout.session.completed` with a
resolvable (truthy) customer email issues exactly one update, which sets
subscription_status to "active" on exactly the records whose
contact_email exactly equals the extracted email and leaves every other
record untouched. -/
theorem stripe_checkout_updates_matching (env : Env) (data em : JValue)
    (hconn : env.supabaseConnected = true)
    (htype : data.dictGet "type" JValue.null = Except.ok (.str "checkout.session.completed"))
    (hmail : extractCustomerEmail data = Except.ok em)
    (htruthy : em.truthy = true)
    (hupd : env.updateResult = Except.ok ()) :
    (handle_stripe_payment env (some data)).response.status = 200 ∧
    (handle_stripe_payment env (some data)).actions =
      [StorageAction.update "clients" "subscription_status" (.str "active") "contact_email" em] ∧
    ∀ tbl, applyActions tbl (handle_stripe_payment env (some data)).actions =
      tbl.map fun r => if r.contact_email = em
        then { r with subscription_status := JValue.str "active" } else r := by
  simp [handle_stripe_payment, stripeCore, tryStep, hconn, htype, hmail, htruthy, hupd,
    JValue.pyEqStr, applyActions, applyAction, StoredRecord.getField, StoredRecord.setField]

theorem stripe_checkout_updates_matching_witness :
    (handle_stripe_payment envReady (some stripeCheckoutBody)).response.status = 200 ∧
    (handle_stripe_payment envReady (some stripeCheckoutBody)).actions =
      [StorageAction.update "clients" "subscription_status" (.str "active")
        "contact_email" (.str "a@b.com")] ∧
    applyActions [rowMatching, rowOther]
        (handle_stripe_payment envReady (some stripeCheckoutBody)).actions =
      [{ rowMatching with subscription_status := JValue.str "active" }, rowOther] := by
  have h := stripe_checkout_updates_matching envReady stripeCheckoutBody (.str "a@b.com")
    rfl rfl rfl rfl rfl
  refine ⟨h.1, h.2.1, ?_⟩
  rw [h.2.2 [rowMatching, rowOther]]
  decide

/-- Claim C5: a Stripe POST whose event type is not
`checkout.session.completed`, or whose type matches but whose nested email
path yields nothing truthy (in particular when any path segment is
absent, the chained `.get` defaults make the read yield `None`), issues
no storage action and still answers 200. -/
theorem stripe_noop_still_200 (env : Env) (data t em : JValue)
    (hconn : env.supabaseConnected = true)
    (htype : data.dictGet "type" JValue.null = Except.ok t)
    (hcase : t ≠ .str "checkout.session.completed" ∨
      (extractCustomerEmail data = Except.ok em ∧ em.truthy = false)) :
    (handle_stripe_payment env (some data)).response = ⟨200, stripeSuccessBody⟩ ∧
    (handle_stripe_payment env (some data)).actions = [] ∧
    ∀ tbl, applyActions tbl (handle_stripe_payment env (some data)).actions = tbl := by
  rcases hcase with h | ⟨hm, hf⟩
  · have hne : t.pyEqStr "checkout.session.completed" = false := by
      cases t <;> simp_all [JValue.pyEqStr]
    simp [handle_stripe_payment, stripeCore, tryStep, hconn, htype, hne, applyActions]
  · simp [handle_stripe_payment, stripeCore, tryStep, hconn, htype, hm, hf, applyActions]

theorem stripe_noop_still_200_witness :
    (handle_stripe_payment envReady (some stripeOtherBody)).response = ⟨200, stripeSuccessBody⟩ ∧
    (handle_stripe_payment envReady (some stripeOtherBody)).actions = [] ∧
    ∀ tbl, applyActions tbl (handle_stripe_payment envReady (some stripeOtherBody)).actions = tbl :=
  stripe_noop_still_200 envReady stripeOtherBody (.str "invoice.paid") JValue.null
    rfl rfl (Or.inl (by decide))

/-- Every non-raising path through the Stripe `try` block produces the
constant 200 success response. -/
theorem stripeCore_ok_status (env : Env) (body : Option JValue)
    (out : HttpResponse × List StorageAction × List String)
    (h : stripeCore env body = Except.ok out) : out.1 = ⟨200, stripeSuccessBody⟩ := by
  unfold stripeCore at h
  simp only [tryStep] at h
  repeat' (first | (split at h) | (simp only [] at h))
  all_goals first
    | exact (Except.noConfusion h)
    | (injection h with h2; rw [← h2])

/-- Claim C6 as stated is false: with the storage client uninitialized the
Stripe handler answers 500 "Database connection failed" although
processing the very same body raises no exception (the `try` body runs to
a 200 result in the same situation). -/
theorem stripe_500_without_exception :
    (handle_stripe_payment envNoClient (some stripeOtherBody)).response =
      ⟨500, jerror "Database connection failed"⟩ ∧
    stripeCore envNoClient (some stripeOtherBody) =
      Except.ok (⟨200, stripeSuccessBody⟩, [], ["📋 Stripe event type: invoice.paid"]) :=
  ⟨rfl, rfl⟩

/-- Claim C6 amended: a Stripe POST is answered 200 with the generic
success body unless an exception occurs during processing (500 with the
error text) or the storage client is uninitialized (500 with "Database
connection failed"); there is no other way to get a non-200 response. -/
theorem stripe_response_codes (env : Env) (body : Option JValue) :
    ((handle_stripe_payment env body).response.status = 200 ∨
     (handle_stripe_payment env body).response.status = 500) ∧
    (env.supabaseConnected = false →
      (handle_stripe_payment env body).response = ⟨500, jerror "Database connection failed"⟩) ∧
    (env.supabaseConnected = true →
      ∀ e acts lgs, stripeCore env body = Except.error (e, acts, lgs) →
        (handle_stripe_payment env body).response = ⟨500, jerror e⟩) ∧
    (env.supabaseConnected = true →
      ∀ out, stripeCore env body = Except.ok out →
        (handle_stripe_payment env body).response = ⟨200, stripeSuccessBody⟩) := by
  refine ⟨?_, ?_, ?_, ?_⟩
  · by_cases hconn : env.supabaseConnected
    · cases hcore : stripeCore env body with
      | error e =>
          rcases e with ⟨e, acts, lgs⟩
          simp [handle_stripe_payment, hconn, hcore]
      | ok out =>
          have := stripeCore_ok_status env body out hcore
          simp [handle_stripe_payment, hconn, hcore, this]
    · simp [handle_stripe_payment, Bool.not_eq_true] at hconn ⊢
      simp [hconn]
  · intro hconn
    simp [handle_stripe_payment, hconn]
  · intro hconn e acts lgs hcore
    simp [handle_stripe_payment, hconn, hcore]
  · intro hconn out hcore
    have := stripeCore_ok_status env body out hcore
    simp [handle_stripe_payment, hconn, hcore, this]

theorem stripe_response_codes_witness :
    (handle_stripe_payment envNoClient (some stripeOtherBody)).response =
      ⟨500, jerror "Database connection failed"⟩ :=
  (stripe_response_codes envNoClient (some stripeOtherBody)).2.1 rfl

/-- Claim C7: a Typeform POST whose body is absent or fails to parse as
JSON (`request.json` yields no data) is answered 400, not 500, and issues
no storage write. -/
theorem typeform_no_json_body_400 (env : Env)
    (hconn : env.supabaseConnected = true) :
    (handle_typeform_submission env none).response = ⟨400, jerror "No data received"⟩ ∧
    (handle_typeform_submission env none).actions = [] := by
  simp [handle_typeform_submission, hconn]

theorem typeform_no_json_body_400_witness :
    (handle_typeform_submission envReady none).response = ⟨400, jerror "No data received"⟩ ∧
    (handle_typeform_submission envReady none).actions = [] :=
  typeform_no_json_body_400 envReady rfl

/-- Claim C8 as stated is false: the 400 response for a 2-answer
submission is the constant body `{'error': 'Incomplete form submission'}`,
whose text contains no character `2`, so the response does not report the
count of answers received (the count appears only in the console log). -/
theorem typeform_short_answers_response_lacks_count :
    (handle_typeform_submission envReady (some typeformBodyTwo)).response =
      ⟨400, jerror "Incomplete form submission"⟩ ∧
    ((jerror "Incomplete form submission").pyRepr.toList.contains '2') = false ∧
    (handle_typeform_submission envReady (some typeformBodyTwo)).log =
      ["📥 Received Typeform webhook", "❌ ERROR: Not enough answers (got 2, need 4)"] := by
  decide

/-- Claim C8 amended: the 400 response for a short answers list carries
the fixed message "Incomplete form submission" independent of the count;
the count actually received is reported only in the console log line. -/
theorem typeform_short_answers_count_logged (env : Env) (data : JValue) (xs : List JValue)
    (hconn : env.supabaseConnected = true)
    (htruthy : data.truthy = true)
    (hext : extractAnswers data = Except.ok (.arr xs))
    (hlen : xs.length < 4) :
    (handle_typeform_submission env (some data)).response =
      ⟨400, jerror "Incomplete form submission"⟩ ∧
    (handle_typeform_submission env (some data)).log =
      ["📥 Received Typeform webhook",
       "❌ ERROR: Not enough answers (got " ++ toString xs.length ++ ", need 4)"] := by
  simp [handle_typeform_submission, typeformCore, tryStep, hconn, htruthy, hext,
    JValue.pyLen, if_pos hlen]

theorem typeform_short_answers_count_logged_witness :
    (handle_typeform_submission envReady (some typeformBodyTwo)).response =
      ⟨400, jerror "Incomplete form submission"⟩ ∧
    (handle_typeform_submission envReady (some typeformBodyTwo)).log =
      ["📥 Received Typeform webhook",
       "❌ ERROR: Not enough answers (got " ++ toString 2 ++ ", need 4)"] :=
  typeform_short_answers_count_logged envReady typeformBodyTwo
    [.obj tfF0, .obj tfF1] rfl rfl rfl (by decide)

/-- Claim C9: when either environment variable is absent the storage
client stays null, yet every endpoint still answers — the two webhook
handlers with an explicit 500 and no storage action, the health checks
with 200. -/
theorem missing_env_vars_explicit_500 (url serviceKey : Option String)
    (ir : Except String (List JValue)) (ur : Except String Unit)
    (hmiss : url = none ∨ serviceKey = none) :
    initSupabaseConnected url serviceKey = false ∧
    ∀ body : Option JValue,
      (handle_typeform_submission ⟨initSupabaseConnected url serviceKey, ir, ur⟩ body).response =
        ⟨500, jerror "Database connection failed"⟩ ∧
      (handle_typeform_submission ⟨initSupabaseConnected url serviceKey, ir, ur⟩ body).actions = [] ∧
      (handle_stripe_payment ⟨initSupabaseConnected url serviceKey, ir, ur⟩ body).response =
        ⟨500, jerror "Database connection failed"⟩ ∧
      (handle_stripe_payment ⟨initSupabaseConnected url serviceKey, ir, ur⟩ body).actions = [] ∧
      (handle_home (initSupabaseConnected url serviceKey)).status = 200 ∧
      handle_health.status = 200 := by
  have h : initSupabaseConnected url serviceKey = false := by
    rcases hmiss with h | h <;> simp [initSupabaseConnected, h, pyOptStrTruthy]
  refine ⟨h, fun body => ?_⟩
  simp [handle_typeform_submission, handle_stripe_payment, handle_home, handle_health, h]

theorem missing_env_vars_explicit_500_witness :
    initSupabaseConnected none (some "service-key") = false ∧
    (handle_typeform_submission ⟨initSupabaseConnected none (some "service-key"),
        Except.ok [], Except.ok ()⟩ (some typeformBodyTwo)).response =
      ⟨500, jerror "Database connection failed"⟩ := by
  have h := missing_env_vars_explicit_500 none (some "service-key")
    (Except.ok []) (Except.ok ()) (Or.inl rfl)
  exact ⟨h.1, (h.2 (some typeformBodyTwo)).1⟩

/-- Claim C10: the update issued by the Stripe handler touches only the
subscription_status column — for every stored record, all other fields
survive unchanged, and records with a different contact_email keep even
their subscription_status. -/
theorem stripe_update_touches_only_status (env : Env) (data em : JValue)
    (hconn : env.supabaseConnected = true)
    (htype : data.dictGet "type" JValue.null = Except.ok (.str "checkout.session.completed"))
    (hmail : extractCustomerEmail data = Except.ok em)
    (htruthy : em.truthy = true)
    (hupd : env.updateResult = Except.ok ()) :
    ∀ tbl, List.Forall₂ (fun r r2 : StoredRecord =>
        r2.id = r.id ∧ r2.business_name = r.business_name ∧
        r2.contact_email = r.contact_email ∧ r2.prospecting_niche = r.prospecting_niche ∧
        r2.prospecting_location = r.prospecting_location ∧ r2.monthly_plan = r.monthly_plan ∧
        (r.contact_email = em → r2.subscription_status = .str "active") ∧
        (r.contact_email ≠ em → r2.subscription_status = r.subscription_status))
      tbl (applyActions tbl (handle_stripe_payment env (some data)).actions) := by
  intro tbl
  have hact : (handle_stripe_payment env (some data)).actions =
      [StorageAction.update "clients" "subscription_status" (.str "active")
        "contact_email" em] := by
    simp [handle_stripe_payment, stripeCore, tryStep, hconn, htype, hmail, htruthy, hupd,
      JValue.pyEqStr]
  rw [hact]
  simp only [applyActions, applyAction]
  rw [List.forall₂_map_right_iff, List.forall₂_same]
  intro r hr
  by_cases hm : r.getField "contact_email" = em <;>
    simp [StoredRecord.getField, StoredRecord.setField] at hm ⊢ <;> simp [hm]

theorem stripe_update_touches_only_status_witness :
    List.Forall₂ (fun r r2 : StoredRecord =>
        r2.id = r.id ∧ r2.business_name = r.business_name ∧
        r2.contact_email = r.contact_email ∧ r2.prospecting_niche = r.prospecting_niche ∧
        r2.prospecting_location = r.prospecting_location ∧ r2.monthly_plan = r.monthly_plan ∧
        (r.contact_email = .str "a@b.com" → r2.subscription_status = .str "active") ∧
        (r.contact_email ≠ .str "a@b.com" → r2.subscription_status = r.subscription_status))
      [rowMatching, rowOther]
      (applyActions [rowMatching, rowOther]
        (handle_stripe_payment envReady (some stripeCheckoutBody)).actions) :=
  stripe_update_touches_only_status envReady stripeCheckoutBody (.str "a@b.com")
    rfl rfl rfl rfl rfl [rowMatching, rowOther]
